import Mathlib

/-!
Shallow embedding of ansible_mitogen/connection.py: connection
specification derivation, the connection-method registry, recursive stack
resolution, the ContextService client, the call facade, exec_command and
the file-transfer policy.

Python dict values appearing in hop keyword arguments are modelled by the
`Val` inductive; Python truthiness of optional strings and integers is
made explicit by the py* helpers. Exceptions are modelled by `Except` or
by an explicit error component of the result.
-/

/-- Python truthiness of an optional string: None and the empty string are
falsy. -/
def pyTruthyO : Option String → Bool
  | Option.none => false
  | some s => if s = "" then false else true

/-- Python `a or b` on optional strings: returns `b` when `a` is None or
the empty string, otherwise `a`. -/
def pyOrStr (a b : Option String) : Option String :=
  match a with
  | Option.none => b
  | some s => if s = "" then b else some s

/-- Python `a or b` where `a` is an optional integer and `b` an integer:
None and 0 are falsy. -/
def pyOrNat (a : Option Nat) (b : Nat) : Nat :=
  match a with
  | Option.none => b
  | some n => if n = 0 then b else n

/-- Python percent-formatting of an optional string: None prints as the
four-letter string None. -/
def pyStr : Option String → String
  | Option.none => "None"
  | some s => s

/-- Modelled from the spec: `ansible.utils.shlex.shlex_split` is an
external library function that tokenizes a string using shell syntax; the
properties verified here depend only on the tokenization of the empty
string (which is the empty list). Quote-free whitespace splitting is used
as the model. -/
def shlex_split (s : String) : List String :=
  (s.splitOn " ").filter (fun t => t ≠ "")

/-- Embeds `parse_python_path`: shell-tokenize the interpreter setting, or
None when the setting is falsy. -/
def parse_python_path (s : Option String) : Option (List String) :=
  match s with
  | Option.none => Option.none
  | some t => if t = "" then Option.none else some (shlex_split t)

/-- Modelled from the spec: `C.HOST_KEY_CHECKING` is external Ansible
configuration, a boolean constant from the surrounding system; its value
does not affect any verified property. -/
def HOST_KEY_CHECKING : Bool := true

/-- Values of the Python dicts used as hop keyword arguments. -/
inductive Val where
  | vnone
  | vstr (s : String)
  | vsecret (s : String)
  | vnat (n : Nat)
  | vbool (b : Bool)
  | vstrs (l : List String)
  deriving DecidableEq

/-- Embeds `optional_secret`: wrap a non-None value in a Secret, else
None. -/
def optional_secret : Option String → Val
  | Option.none => .vnone
  | some s => .vsecret s

/-- Injection of an optional string into `Val`. -/
def oStr : Option String → Val
  | Option.none => .vnone
  | some s => .vstr s

/-- Injection of an optional integer into `Val`. -/
def oNat : Option Nat → Val
  | Option.none => .vnone
  | some n => .vnat n

/-- Injection of an optional string list into `Val`. -/
def oStrs : Option (List String) → Val
  | Option.none => .vnone
  | some l => .vstrs l

/-- One element of a resolved stack, as produced by the `_connect_*`
functions: the wire-level method name, the optional `enable_lru` key
(None models a dict without that key), and the keyword-argument dict. -/
structure Hop where
  method : String
  enable_lru : Option Bool := Option.none
  kwargs : List (String × Val)
  deriving DecidableEq

/-- The connection-specification dict produced by
`config_from_play_context` and `config_from_hostvars`, with one typed
field per dict key. -/
structure Spec where
  transport : String
  inventory_name : String
  remote_addr : String
  remote_user : Option String
  become : Bool
  become_method : String
  become_user : Option String
  become_pass : Option String
  password : Option String
  port : Option Nat
  python_path : Option (List String)
  private_key_file : Option String
  ssh_executable : Option String
  timeout : Nat
  ansible_ssh_timeout : Option Nat
  ssh_args : List String
  become_exe : Option String
  sudo_args : List String
  mitogen_via : Option String
  mitogen_kind : Option String
  mitogen_docker_path : Option String
  mitogen_lxc_info_path : Option String
  mitogen_machinectl_path : Option String
  mitogen_ssh_debug_level : Option Nat
  deriving DecidableEq

/-- Embeds `_connect_local`. -/
def _connect_local (spec : Spec) : Hop :=
  { method := "local",
    kwargs := [("python_path", oStrs spec.python_path)] }

/-- Embeds `_connect_ssh`. -/
def _connect_ssh (spec : Spec) : Hop :=
  { method := "ssh",
    kwargs := [
      ("check_host_keys", .vstr (if HOST_KEY_CHECKING then "enforce" else "ignore")),
      ("hostname", .vstr spec.remote_addr),
      ("username", oStr spec.remote_user),
      ("password", optional_secret spec.password),
      ("port", oNat spec.port),
      ("python_path", oStrs spec.python_path),
      ("identity_file", oStr spec.private_key_file),
      ("identities_only", .vbool false),
      ("ssh_path", oStr spec.ssh_executable),
      ("connect_timeout", oNat spec.ansible_ssh_timeout),
      ("ssh_args", .vstrs spec.ssh_args),
      ("ssh_debug_level", oNat spec.mitogen_ssh_debug_level)] }

/-- Embeds `_connect_docker`. -/
def _connect_docker (spec : Spec) : Hop :=
  { method := "docker",
    kwargs := [
      ("username", oStr spec.remote_user),
      ("container", .vstr spec.remote_addr),
      ("python_path", oStrs spec.python_path),
      ("connect_timeout", .vnat (pyOrNat spec.ansible_ssh_timeout spec.timeout))] }

/-- Embeds `_connect_jail`. -/
def _connect_jail (spec : Spec) : Hop :=
  { method := "jail",
    kwargs := [
      ("username", oStr spec.remote_user),
      ("container", .vstr spec.remote_addr),
      ("python_path", oStrs spec.python_path),
      ("connect_timeout", .vnat (pyOrNat spec.ansible_ssh_timeout spec.timeout))] }

/-- Embeds `_connect_lxc`. -/
def _connect_lxc (spec : Spec) : Hop :=
  { method := "lxc",
    kwargs := [
      ("container", .vstr spec.remote_addr),
      ("python_path", oStrs spec.python_path),
      ("connect_timeout", .vnat (pyOrNat spec.ansible_ssh_timeout spec.timeout))] }

/-- Embeds `_connect_lxd`. -/
def _connect_lxd (spec : Spec) : Hop :=
  { method := "lxd",
    kwargs := [
      ("container", .vstr spec.remote_addr),
      ("python_path", oStrs spec.python_path),
      ("connect_timeout", .vnat (pyOrNat spec.ansible_ssh_timeout spec.timeout))] }

/-- Embeds `_connect_setns`. -/
def _connect_setns (spec : Spec) : Hop :=
  { method := "setns",
    kwargs := [
      ("container", .vstr spec.remote_addr),
      ("username", oStr spec.remote_user),
      ("python_path", oStrs spec.python_path),
      ("kind", oStr spec.mitogen_kind),
      ("docker_path", oStr spec.mitogen_docker_path),
      ("lxc_info_path", oStr spec.mitogen_lxc_info_path),
      ("machinectl_path", oStr spec.mitogen_machinectl_path)] }

/-- Embeds `_connect_machinectl`: the setns method with a fixed kind. -/
def _connect_machinectl (spec : Spec) : Hop :=
  _connect_setns { spec with mitogen_kind := some "machinectl" }

/-- Embeds `_connect_su`: su as a become method, with `enable_lru`. -/
def _connect_su (spec : Spec) : Hop :=
  { method := "su",
    enable_lru := some true,
    kwargs := [
      ("username", oStr spec.become_user),
      ("password", optional_secret spec.become_pass),
      ("python_path", oStrs spec.python_path),
      ("su_path", oStr spec.become_exe),
      ("connect_timeout", .vnat spec.timeout)] }

/-- Embeds `_connect_sudo`: sudo as a become method, with `enable_lru`. -/
def _connect_sudo (spec : Spec) : Hop :=
  { method := "sudo",
    enable_lru := some true,
    kwargs := [
      ("username", oStr spec.become_user),
      ("password", optional_secret spec.become_pass),
      ("python_path", oStrs spec.python_path),
      ("sudo_path", oStr spec.become_exe),
      ("connect_timeout", .vnat spec.timeout),
      ("sudo_args", .vstrs spec.sudo_args)] }

/-- Embeds `_connect_doas`: doas as a become method, with `enable_lru`. -/
def _connect_doas (spec : Spec) : Hop :=
  { method := "doas",
    enable_lru := some true,
    kwargs := [
      ("username", oStr spec.become_user),
      ("password", optional_secret spec.become_pass),
      ("python_path", oStrs spec.python_path),
      ("doas_path", oStr spec.become_exe),
      ("connect_timeout", .vnat spec.timeout)] }

/-- Embeds `_connect_mitogen_su`: su as a first-class connection. -/
def _connect_mitogen_su (spec : Spec) : Hop :=
  { method := "su",
    kwargs := [
      ("username", oStr spec.remote_user),
      ("password", optional_secret spec.password),
      ("python_path", oStrs spec.python_path),
      ("su_path", oStr spec.become_exe),
      ("connect_timeout", .vnat spec.timeout)] }

/-- Embeds `_connect_mitogen_sudo`: sudo as a first-class connection. -/
def _connect_mitogen_sudo (spec : Spec) : Hop :=
  { method := "sudo",
    kwargs := [
      ("username", oStr spec.remote_user),
      ("password", optional_secret spec.password),
      ("python_path", oStrs spec.python_path),
      ("sudo_path", oStr spec.become_exe),
      ("connect_timeout", .vnat spec.timeout),
      ("sudo_args", .vstrs spec.sudo_args)] }

/-- Embeds `_connect_mitogen_doas`: doas as a first-class connection. -/
def _connect_mitogen_doas (spec : Spec) : Hop :=
  { method := "doas",
    kwargs := [
      ("username", oStr spec.remote_user),
      ("password", optional_secret spec.password),
      ("python_path", oStrs spec.python_path),
      ("doas_path", oStr spec.become_exe),
      ("connect_timeout", .vnat spec.timeout)] }

/-- Embeds the `CONNECTION_METHOD` table: method name to hop-producing
function; an unknown name yields None (a KeyError in the source). -/
def CONNECTION_METHOD : String → Option (Spec → Hop)
  | "docker" => some _connect_docker
  | "jail" => some _connect_jail
  | "local" => some _connect_local
  | "lxc" => some _connect_lxc
  | "lxd" => some _connect_lxd
  | "machinectl" => some _connect_machinectl
  | "setns" => some _connect_setns
  | "ssh" => some _connect_ssh
  | "su" => some _connect_su
  | "sudo" => some _connect_sudo
  | "doas" => some _connect_doas
  | "mitogen_su" => some _connect_mitogen_su
  | "mitogen_sudo" => some _connect_mitogen_sudo
  | "mitogen_doas" => some _connect_mitogen_doas
  | _ => Option.none

/-- Host-variable dict for one inventory host; one optional field per key
the source reads. The last field mirrors the literally-read key
`mitogen_machinctl_path` from the source. -/
structure HV where
  ansible_host : Option String := Option.none
  ansible_user : Option String := Option.none
  ansible_ssh_pass : Option String := Option.none
  ansible_password : Option String := Option.none
  ansible_port : Option Nat := Option.none
  ansible_python_interpreter : Option String := Option.none
  ansible_ssh_private_key_file : Option String := Option.none
  ansible_private_key_file : Option String := Option.none
  ansible_connection : Option String := Option.none
  mitogen_via : Option String := Option.none
  mitogen_kind : Option String := Option.none
  mitogen_docker_path : Option String := Option.none
  mitogen_lxc_info_path : Option String := Option.none
  mitogen_machinctl_path : Option String := Option.none
  deriving DecidableEq

/-- The fields of the Ansible PlayContext that the source reads. -/
structure PlayContext where
  remote_addr : String
  remote_user : Option String
  become : Bool
  become_method : String
  become_user : Option String
  become_pass : Option String
  password : Option String
  port : Option Nat
  private_key_file : Option String
  ssh_executable : Option String
  timeout : Nat
  ssh_args : Option String
  ssh_common_args : Option String
  ssh_extra_args : Option String
  sudo_flags : Option String
  become_flags : Option String
  become_exe : Option String
  connection : String
  delegate_to : Option String
  deriving DecidableEq

/-- The Connection-object state read during specification derivation and
stack resolution: the play context, the task-scoped fields set by
`on_action_run`, and the host-variable map (an association list whose
failed lookup models both a missing host and a jinja2 Undefined value). -/
structure Conn where
  play_context : PlayContext
  transport : String
  python_path : Option String
  ansible_ssh_timeout : Option Nat
  mitogen_via : Option String
  mitogen_kind : Option String
  mitogen_docker_path : Option String
  mitogen_lxc_info_path : Option String
  mitogen_machinectl_path : Option String
  mitogen_ssh_debug_level : Option Nat
  inventory_hostname : String
  host_vars : List (String × HV)
  delegate_to_hostname : Option String
  deriving DecidableEq

/-- Embeds `config_from_play_context`: copy every relevant field of the
live execution context into one connection-specification record. The
`ssh_args` entry concatenates the shell-tokenization of three raw
strings, and `sudo_args` that of two, each treating None as empty. -/
def config_from_play_context (transport inventory_name : String) (conn : Conn) : Spec :=
  { transport := transport,
    inventory_name := inventory_name,
    remote_addr := conn.play_context.remote_addr,
    remote_user := conn.play_context.remote_user,
    become := conn.play_context.become,
    become_method := conn.play_context.become_method,
    become_user := conn.play_context.become_user,
    become_pass := conn.play_context.become_pass,
    password := conn.play_context.password,
    port := conn.play_context.port,
    python_path := parse_python_path conn.python_path,
    private_key_file := conn.play_context.private_key_file,
    ssh_executable := conn.play_context.ssh_executable,
    timeout := conn.play_context.timeout,
    ansible_ssh_timeout := conn.ansible_ssh_timeout,
    ssh_args :=
      ([conn.play_context.ssh_args, conn.play_context.ssh_common_args,
        conn.play_context.ssh_extra_args].map
          (fun s => shlex_split (s.getD ""))).flatten,
    become_exe := conn.play_context.become_exe,
    sudo_args :=
      ([conn.play_context.sudo_flags, conn.play_context.become_flags].map
          (fun s => shlex_split (s.getD ""))).flatten,
    mitogen_via := conn.mitogen_via,
    mitogen_kind := conn.mitogen_kind,
    mitogen_docker_path := conn.mitogen_docker_path,
    mitogen_lxc_info_path := conn.mitogen_lxc_info_path,
    mitogen_machinectl_path := conn.mitogen_machinectl_path,
    mitogen_ssh_debug_level := conn.mitogen_ssh_debug_level }

/-- Embeds `config_from_hostvars`: start from the play-context record and
override the host-addressed fields from host variables, set the become
fields from the explicit become user, and clear the become password. -/
def config_from_hostvars (transport inventory_name : String) (conn : Conn)
    (hostvars : HV) (become_user : Option String) : Spec :=
  { config_from_play_context transport inventory_name conn with
    remote_addr := hostvars.ansible_host.getD inventory_name,
    become := pyTruthyO become_user,
    become_user := become_user,
    become_pass := Option.none,
    remote_user := hostvars.ansible_user,
    password := pyOrStr hostvars.ansible_ssh_pass hostvars.ansible_password,
    port := hostvars.ansible_port,
    python_path := parse_python_path hostvars.ansible_python_interpreter,
    private_key_file := pyOrStr hostvars.ansible_ssh_private_key_file
      hostvars.ansible_private_key_file,
    mitogen_via := hostvars.mitogen_via,
    mitogen_kind := hostvars.mitogen_kind,
    mitogen_docker_path := hostvars.mitogen_docker_path,
    mitogen_lxc_info_path := hostvars.mitogen_lxc_info_path,
    mitogen_machinectl_path := hostvars.mitogen_machinctl_path }

/-- Splits a character list at its last occurrence of `sep`, returning the
parts before and after it, or None when `sep` does not occur. -/
def rsplitLast (sep : Char) : List Char → Option (List Char × List Char)
  | [] => Option.none
  | c :: cs =>
    match rsplitLast sep cs with
    | some (l, r) => some (c :: l, r)
    | Option.none => if c = sep then some ([], cs) else Option.none

/-- Embeds `via_spec.rpartition(at-sign)` as used by `_config_from_via`:
the pair of the become user (empty when no at-sign occurs) and the
inventory name. -/
def viaSplit (via_spec : String) : String × String :=
  match rsplitLast '@' via_spec.toList with
  | some (l, r) => (String.mk l, String.mk r)
  | Option.none => ("", via_spec)

/-- Error taxonomy of stack resolution. The source raises
AnsibleConnectionFailure for both cycle and unknown-host failures,
distinguished only by message; the constructors keep the origin visible
while carrying the exact message. An unknown method name is a KeyError on
the registry in the source. `fuelExhausted` is an artifact of modelling
the unbounded Python recursion with explicit fuel. -/
inductive ResolveError where
  | routingCycle (msg : String)
  | unknownHost (msg : String)
  | unknownMethod (name : String)
  | fuelExhausted
  deriving DecidableEq

/-- Embeds the `unknown_via_msg` format string applied to the task-level
`mitogen_via` and the unresolvable inventory name. -/
def unknown_via_msg (mitogen_via : Option String) (inventory_name : String) : String :=
  "mitogen_via=" ++ pyStr mitogen_via ++ " of " ++ inventory_name ++
    " specifies an unknown hostname"

/-- Embeds the `via_cycle_msg` format string applied to the failing
specification and the joined chain string. -/
def via_cycle_msg (mitogen_via : Option String) (inventory_name chain : String) : String :=
  "mitogen_via=" ++ pyStr mitogen_via ++ " of " ++ inventory_name ++
    " creates a cycle (" ++ chain ++ ")"

/-- Embeds `_config_from_via`: parse `[become_user@]inventory_hostname`,
look the inventory name up in the host variables (an Undefined or missing
entry raises the unknown-hostname failure), and derive the nested
specification from the host variables using the host-declared transport
with an ssh default. -/
def _config_from_via (conn : Conn) (via_spec : String) : Except ResolveError Spec :=
  let bu := (viaSplit via_spec).1
  let inventory_name := (viaSplit via_spec).2
  match conn.host_vars.lookup inventory_name with
  | Option.none => .error (.unknownHost (unknown_via_msg conn.mitogen_via inventory_name))
  | some via_vars =>
    .ok (config_from_hostvars (via_vars.ansible_connection.getD "ssh")
      inventory_name conn via_vars
      (if bu = "" then Option.none else some bu))

/-- Embeds `_stack_from_config`: check the current inventory name against
the seen set, recurse through a truthy `mitogen_via`, then append the
transport hop and, when become is set, the become-method hop. Fuel makes
the Python recursion a total Lean function; every terminating Python run
corresponds to any sufficiently large fuel. -/
def _stack_from_config (conn : Conn) : Spec → List Hop → List String → Nat →
    Except ResolveError (List Hop × List String)
  | _, _, _, 0 => .error .fuelExhausted
  | config, stack, seen_names, fuel + 1 =>
    if config.inventory_name ∈ seen_names then
      .error (.routingCycle (via_cycle_msg config.mitogen_via config.inventory_name
        (String.intercalate " -> " ((seen_names ++ [config.inventory_name]).reverse))))
    else
      match ((if pyTruthyO config.mitogen_via then
              match _config_from_via conn (config.mitogen_via.getD "") with
              | .error e => .error e
              | .ok nested =>
                _stack_from_config conn nested stack
                  (seen_names ++ [config.inventory_name]) fuel
            else
              .ok (stack, seen_names)) :
          Except ResolveError (List Hop × List String)) with
      | .error e => .error e
      | .ok (stack, seen_names) =>
        match CONNECTION_METHOD config.transport with
        | Option.none => .error (.unknownMethod config.transport)
        | some tf =>
          if config.become then
            match CONNECTION_METHOD config.become_method with
            | Option.none => .error (.unknownMethod config.become_method)
            | some bf => .ok (stack ++ [tf config] ++ [bf config], seen_names)
          else
            .ok (stack ++ [tf config], seen_names)

/-- Chain of connection specifications traversed by `_stack_from_config`,
in stack order (deepest via host first, final target last), computed by
the same recursion and failing in the same cases that precede registry
lookups. -/
def chainCfgs (conn : Conn) : Spec → List String → Nat →
    Except ResolveError (List Spec)
  | _, _, 0 => .error .fuelExhausted
  | config, seen_names, fuel + 1 =>
    if config.inventory_name ∈ seen_names then
      .error (.routingCycle (via_cycle_msg config.mitogen_via config.inventory_name
        (String.intercalate " -> " ((seen_names ++ [config.inventory_name]).reverse))))
    else if pyTruthyO config.mitogen_via then
      match _config_from_via conn (config.mitogen_via.getD "") with
      | .error e => .error e
      | .ok nested =>
        match chainCfgs conn nested (seen_names ++ [config.inventory_name]) fuel with
        | .error e => .error e
        | .ok front => .ok (front ++ [config])
    else
      .ok [config]

/-- Hops contributed by one specification of the chain: its transport hop
followed by its become hop when become is set, with registry lookups that
succeed on resolvable specifications. -/
def hopsOf (config : Spec) : List Hop :=
  (match CONNECTION_METHOD config.transport with
    | some f => [f config]
    | Option.none => []) ++
  (if config.become then
    match CONNECTION_METHOD config.become_method with
    | some f => [f config]
    | Option.none => []
  else [])

/-- Both registry lookups needed for one specification succeed. -/
def knownMethods (config : Spec) : Prop :=
  (CONNECTION_METHOD config.transport).isSome = true ∧
    (config.become = true → (CONNECTION_METHOD config.become_method).isSome = true)

instance (config : Spec) : Decidable (knownMethods config) := by
  unfold knownMethods
  infer_instance

/-- Embeds the `become_methods` class attribute. -/
def become_methods : List String := ["sudo", "su", "doas"]

/-- Mutable per-Connection handle state: the three context references
(opaque identifiers), the derived metadata, and the broker and router
presence flags. -/
structure ConnSt where
  context : Option Nat := Option.none
  login_context : Option Nat := Option.none
  fork_context : Option Nat := Option.none
  home_dir : Option String := Option.none
  temp_dir : Option String := Option.none
  broker : Bool := false
  router : Bool := false
  deriving DecidableEq

/-- The dict returned by the get operation of the ContextService: a falsy
`msg` means success and the remaining fields are read; a truthy `msg`
means a structured failure tagged with the failing method name. -/
structure GetDict where
  msg : Option String
  method_name : String
  context : Nat
  via : Nat
  fork_context : Nat
  home_dir : String
  temp_dir : String
  deriving DecidableEq

/-- Failure classification of `_connect_stack`: the two Ansible exception
classes the source raises. -/
inductive ConnError where
  | moduleError (msg : String)
  | connectionFailure (msg : String)
  deriving DecidableEq

/-- Embeds `_connect_stack` after the service round trip: classify a
truthy failure message by whether the failing method is a become method,
raising without touching any field; on success set the context, the login
context (the via context under become, else the target context), the fork
context and the directory metadata. `become` is the play-context become
flag. -/
def _connect_stack (become : Bool) (st : ConnSt) (dct : GetDict) :
    ConnSt × Option ConnError :=
  if pyTruthyO dct.msg then
    if dct.method_name ∈ become_methods then
      (st, some (.moduleError (dct.msg.getD "")))
    else
      (st, some (.connectionFailure (dct.msg.getD "")))
  else
    ({ st with
        context := some dct.context,
        login_context := some (if become then dct.via else dct.context),
        fork_context := some dct.fork_context,
        home_dir := some dct.home_dir,
        temp_dir := some dct.temp_dir }, Option.none)

/-- Embeds `close`: release the handle through the put operation of the
ContextService when one is held (the boolean result records whether that
release call was issued), clear the three context references, and unless
a new task is about to reuse it, shut down and clear the broker and
router. Total, mirroring that close is safe to call repeatedly. -/
def close (st : ConnSt) (new_task : Bool) : ConnSt × Bool :=
  let put_issued := st.context.isSome
  let st := { st with
    context := Option.none,
    fork_context := Option.none,
    login_context := Option.none }
  if st.broker && !new_task then
    ({ st with broker := false, router := false }, put_issued)
  else
    (st, put_issued)

/-- Observable outcome of `exec_command`: the returned triple plus the
pseudo-terminal flag passed to the remote exec function. -/
structure ExecOut where
  rc : Int
  stdout : String
  stderr : String
  emulate_tty : Bool
  deriving DecidableEq

/-- Embeds `exec_command`: the pseudo-terminal flag is requested exactly
when the input is empty and escalation is allowed; the working directory
is the explicit override or else the default hook; the remote result gets
the synthetic closed-connection trailer appended to standard error, with
a carriage-return-linefeed terminator under pty emulation and a bare
linefeed otherwise. The remote target function is a parameter receiving
the command, input, directory and pty flag. -/
def exec_command (remote : String → String → Option String → Bool → Int × String × String)
    (remote_addr cmd in_data : String) (sudoable : Bool)
    (mitogen_chdir default_cwd : Option String) : ExecOut :=
  let emulate_tty := (if in_data = "" then true else false) && sudoable
  let chdir := pyOrStr mitogen_chdir default_cwd
  let r := remote cmd in_data chdir emulate_tty
  { rc := r.1,
    stdout := r.2.1,
    stderr := r.2.2 ++ "Shared connection to " ++ remote_addr ++ " closed." ++
      (if emulate_tty then "\r\n" else "\n"),
    emulate_tty := emulate_tty }

/-- Stat-and-read view of the local file handled by `put_file`: the
regular-file bit and size from the stat call, the mode and timestamps it
carries, and the byte count available at the later read (which differs
from the stat size when the file changed in between). -/
structure LocalFile where
  regular : Bool
  st_size : Nat
  st_mode : Nat
  st_atime : Int
  st_mtime : Int
  size_at_read : Nat
  deriving DecidableEq

/-- Transfer decision of `put_file`: the inline path is the
fire-and-forget write carrying the read byte count, mode bits and
timestamps; the streamed path registers the local path with the
FileService and issues the synchronous transfer call. -/
inductive PutAction where
  | inline (data_len : Nat) (mode : Option Nat) (utimes : Option (Int × Int))
      (no_reply : Bool)
  | streamed
  deriving DecidableEq

/-- Embeds `put_data`: a write-path call dispatched without a reply
channel, carrying the payload length, mode and timestamps. -/
def put_data (data_len : Nat) (mode : Option Nat) (utimes : Option (Int × Int)) :
    PutAction :=
  .inline data_len mode utimes true

/-- Embeds `put_file` up to the external service calls: reject non-regular
files; when the stat size is within the small-file limit (the chunk size
minus 4096), read at most one byte past the limit and take the inline
path only when the byte count read still equals the stat size; in every
other case fall through to the streamed path. The chunk size is a
parameter because `mitogen.core.CHUNK_SIZE` lives outside this file; the
spec fixes only the threshold relation. -/
def put_file (chunk_size : Nat) (in_path : String) (f : LocalFile) :
    Except String PutAction :=
  if !f.regular then
    .error (in_path ++ " is not a regular file.")
  else
    let limit := chunk_size - 4096
    if f.st_size ≤ limit then
      let read_len := min f.size_at_read (limit + 1)
      if read_len = f.st_size then
        .ok (put_data read_len (some f.st_mode) (some (f.st_atime, f.st_mtime)))
      else
        .ok .streamed
    else
      .ok .streamed

/-- Result of the remote function underlying a call: a value of the given
type, or a remote exception payload. -/
inductive CallOutcome (α : Type) where
  | value (v : α)
  | remoteError (e : String)
  deriving DecidableEq

/-- Embeds the dispatch decision of `call_async`: with `no_reply` the call
is sent without a reply channel and returns None (the source notes the
None receiver marks exactly this case); otherwise a receiver for the
remote outcome is returned. Modelled from the spec where the underlying
mitogen call primitives live outside this file: `call_no_reply` returns
no receiver, `call_async` returns one carrying the remote outcome. -/
def call_async (no_reply : Bool) (remote : CallOutcome α) : Option (CallOutcome α) :=
  if no_reply then Option.none else some remote

/-- Embeds `call`: run `call_async`; a None receiver (the `no_reply` case)
returns None immediately, otherwise wait for the reply and re-raise a
remote exception locally. -/
def call (no_reply : Bool) (remote : CallOutcome α) : Except String (Option α) :=
  match call_async no_reply remote with
  | Option.none => .ok Option.none
  | some (.value v) => .ok (some v)
  | some (.remoteError e) => .error e

/-- Host variables with every key absent. -/
def emptyHV : HV := {}

/-- A concrete play context used by the concrete instances below. -/
def pc0 : PlayContext :=
  { remote_addr := "10.0.0.1", remote_user := some "alice", become := false,
    become_method := "sudo", become_user := some "root",
    become_pass := Option.none, password := Option.none, port := some 22,
    private_key_file := Option.none, ssh_executable := Option.none,
    timeout := 10, ssh_args := Option.none, ssh_common_args := Option.none,
    ssh_extra_args := Option.none, sudo_flags := Option.none,
    become_flags := Option.none, become_exe := Option.none,
    connection := "ssh", delegate_to := Option.none }

/-- A concrete Connection state for host A with no via and no host
variables. -/
def conn0 : Conn :=
  { play_context := pc0, transport := "ssh", python_path := Option.none,
    ansible_ssh_timeout := Option.none, mitogen_via := Option.none,
    mitogen_kind := Option.none, mitogen_docker_path := Option.none,
    mitogen_lxc_info_path := Option.none, mitogen_machinectl_path := Option.none,
    mitogen_ssh_debug_level := Option.none, inventory_hostname := "A",
    host_vars := [], delegate_to_hostname := Option.none }

/-- Connection state for a two-host chain A via B with no escalation user
on the via reference. -/
def connAB : Conn :=
  { conn0 with mitogen_via := some "B", host_vars := [("B", emptyHV)] }

/-- Target specification of host A in the `connAB` chain. -/
def cfgAB : Spec := config_from_play_context "ssh" "A" connAB

/-- Connection state for a two-host chain A via root@B: the via reference
carries an escalation user. -/
def connABroot : Conn :=
  { conn0 with mitogen_via := some "root@B", host_vars := [("B", emptyHV)] }

/-- Target specification of host A in the `connABroot` chain. -/
def cfgABroot : Spec := config_from_play_context "ssh" "A" connABroot

/-- Connection state for the three-host via cycle A via B via C via A. -/
def connCycle3 : Conn :=
  { conn0 with
    mitogen_via := some "B",
    host_vars := [
      ("A", { emptyHV with mitogen_via := some "B" }),
      ("B", { emptyHV with mitogen_via := some "C" }),
      ("C", { emptyHV with mitogen_via := some "A" })] }

/-- Target specification of host A in the `connCycle3` chain. -/
def cfgCycle3 : Spec := config_from_play_context "ssh" "A" connCycle3

/-- Specification used by the C2 witness: host A with a truthy via
reference to a host absent from the host variables. -/
def cfgViaMissing : Spec :=
  { config_from_play_context "ssh" "A" conn0 with mitogen_via := some "missing" }

/-- Hops of a whole chain of specifications, concatenated in stack
order. -/
def hopsOfChain (cs : List Spec) : List Hop := (cs.map hopsOf).flatten

/-- Chain of the `connAB` fixture: the via host B first, the target A
last. -/
def chainAB : List Spec :=
  [config_from_hostvars "ssh" "B" connAB emptyHV Option.none, cfgAB]

/-- Connection state holding a live handle and broker, used by the C7
witness. -/
def stLive : ConnSt :=
  { context := some 7, login_context := some 7, fork_context := some 8,
    home_dir := some "/root", temp_dir := some "/tmp/x",
    broker := true, router := true }

/-- Structured failure returned by the get operation with a become method
name, used by the C5 witness. -/
def dctFail : GetDict :=
  { msg := some "permission denied", method_name := "sudo", context := 1,
    via := 2, fork_context := 3, home_dir := "/root", temp_dir := "/tmp/t" }

/-- Regular local file whose stat size equals its size at read time, used
by the C6 witness. -/
def fileSmall : LocalFile :=
  { regular := true, st_size := 4096, st_mode := 420, st_atime := 0,
    st_mtime := 0, size_at_read := 4096 }

/-- Connection state with every field at its initial value, used by the C5
witness. -/
def st0 : ConnSt := {}

lemma hopsOf_length_of_known (c : Spec) (h : knownMethods c) :
    (hopsOf c).length = if c.become then 2 else 1 := by
  obtain ⟨h1, h2⟩ := h
  obtain ⟨tf, htf⟩ := Option.isSome_iff_exists.mp h1
  by_cases hb : c.become = true
  · obtain ⟨bf, hbf⟩ := Option.isSome_iff_exists.mp (h2 hb)
    simp [hopsOf, htf, hb, hbf]
  · simp [hopsOf, htf, hb]

lemma config_from_via_unknown (conn : Conn) (v : String)
    (hlk : conn.host_vars.lookup (viaSplit v).2 = Option.none) :
    _config_from_via conn v =
      .error (.unknownHost (unknown_via_msg conn.mitogen_via (viaSplit v).2)) := by
  simp [_config_from_via, hlk]

lemma stack_from_chain (fuel : Nat) :
    ∀ (conn : Conn) (config : Spec) (stack : List Hop) (seen_names : List String)
      (cs : List Spec),
      chainCfgs conn config seen_names fuel = .ok cs →
      (∀ c ∈ cs, knownMethods c) →
      ∃ sn, _stack_from_config conn config stack seen_names fuel =
        .ok (stack ++ hopsOfChain cs, sn) := by
  induction fuel with
  | zero =>
    intro conn config stack seen cs hchain _
    simp [chainCfgs] at hchain
  | succ n ih =>
    intro conn config stack seen cs hchain hknown
    by_cases hmem : config.inventory_name ∈ seen
    · simp [chainCfgs, hmem] at hchain
    · by_cases hvia : pyTruthyO config.mitogen_via = true
      · simp only [chainCfgs] at hchain
        rw [if_neg hmem, if_pos hvia] at hchain
        cases hcv : _config_from_via conn (config.mitogen_via.getD "") with
        | error e =>
          rw [hcv] at hchain; simp only [] at hchain; exact absurd hchain (by simp)
        | ok nested =>
          rw [hcv] at hchain
          simp only [] at hchain
          cases hcc : chainCfgs conn nested (seen ++ [config.inventory_name]) n with
          | error e =>
            rw [hcc] at hchain; simp only [] at hchain; exact absurd hchain (by simp)
          | ok front =>
            rw [hcc] at hchain
            simp only [Except.ok.injEq] at hchain
            subst hchain
            have hknown' : ∀ c ∈ front, knownMethods c :=
              fun c hc => hknown c (by simp [hc])
            obtain ⟨h1, h2⟩ := hknown config (by simp)
            obtain ⟨tf, htf⟩ := Option.isSome_iff_exists.mp h1
            obtain ⟨sn, hs⟩ :=
              ih conn nested stack (seen ++ [config.inventory_name]) front hcc hknown'
            refine ⟨sn, ?_⟩
            simp only [_stack_from_config]
            rw [if_neg hmem, if_pos hvia, hcv]
            simp only []
            rw [hs]
            simp only []
            by_cases hb : config.become = true
            · obtain ⟨bf, hbf⟩ := Option.isSome_iff_exists.mp (h2 hb)
              simp [htf, hbf, hb, hopsOfChain, hopsOf, List.append_assoc]
            · simp [htf, hb, hopsOfChain, hopsOf, List.append_assoc]
      · simp only [chainCfgs] at hchain
        rw [if_neg hmem, if_neg hvia] at hchain
        simp only [Except.ok.injEq] at hchain
        subst hchain
        obtain ⟨h1, h2⟩ := hknown config (by simp)
        obtain ⟨tf, htf⟩ := Option.isSome_iff_exists.mp h1
        refine ⟨seen, ?_⟩
        simp only [_stack_from_config]
        rw [if_neg hmem, if_neg hvia]
        simp only []
        by_cases hb : config.become = true
        · obtain ⟨bf, hbf⟩ := Option.isSome_iff_exists.mp (h2 hb)
          simp [htf, hbf, hb, hopsOfChain, hopsOf]
        · simp [htf, hb, hopsOfChain, hopsOf]

/-- C1 (amended): the escalation-method registry entries `su`, `sudo` and
`doas` produce hop descriptors with `enable_lru=true`; the first-class
transport entries `mitogen_su`, `mitogen_sudo` and `mitogen_doas` and the
base transport `ssh` produce descriptors with no `enable_lru` key. -/
theorem c1_enable_lru_by_role (spec : Spec) :
    CONNECTION_METHOD "su" = some _connect_su ∧
    CONNECTION_METHOD "sudo" = some _connect_sudo ∧
    CONNECTION_METHOD "doas" = some _connect_doas ∧
    CONNECTION_METHOD "mitogen_su" = some _connect_mitogen_su ∧
    CONNECTION_METHOD "mitogen_sudo" = some _connect_mitogen_sudo ∧
    CONNECTION_METHOD "mitogen_doas" = some _connect_mitogen_doas ∧
    CONNECTION_METHOD "ssh" = some _connect_ssh ∧
    (_connect_su spec).enable_lru = some true ∧
    (_connect_sudo spec).enable_lru = some true ∧
    (_connect_doas spec).enable_lru = some true ∧
    (_connect_mitogen_su spec).enable_lru = Option.none ∧
    (_connect_mitogen_sudo spec).enable_lru = Option.none ∧
    (_connect_mitogen_doas spec).enable_lru = Option.none ∧
    (_connect_ssh spec).enable_lru = Option.none :=
  ⟨rfl, rfl, rfl, rfl, rfl, rfl, rfl, rfl, rfl, rfl, rfl, rfl, rfl, rfl⟩

/-- C1 counterexample: the first-class transport entry `mitogen_sudo`
does not set `enable_lru=true`, contradicting the claim that escalation
methods carry `enable_lru=true` in both roles. -/
theorem c1_enable_lru_counterexample :
    (_connect_mitogen_sudo (config_from_play_context "mitogen_sudo" "A" conn0)).enable_lru ≠
      some true := by decide

/-- C2 (amended): whenever the current inventory identity is already in
the seen set, stack resolution raises the RoutingCycle failure at once,
before any via resolution or registry lookup, and the message joins the
seen identities plus the current one in reverse traversal order, each
occurrence exactly once. -/
theorem c2_cycle_check_precedes_via (conn : Conn) (config : Spec)
    (stack : List Hop) (seen_names : List String) (fuel : Nat)
    (h : config.inventory_name ∈ seen_names) :
    _stack_from_config conn config stack seen_names (fuel + 1) =
      .error (.routingCycle (via_cycle_msg config.mitogen_via config.inventory_name
        (String.intercalate " -> "
          ((seen_names ++ [config.inventory_name]).reverse)))) := by
  simp only [_stack_from_config]
  rw [if_pos h]

/-- C2 witness: with identity A already seen and a via reference to a host
with no host variables at all, the RoutingCycle failure is still what
resolution returns, showing the cycle check precedes via resolution. -/
theorem c2_cycle_check_precedes_via_witness :
    cfgViaMissing.inventory_name ∈ ["A"] ∧
    _stack_from_config conn0 cfgViaMissing [] ["A"] 3 =
      .error (.routingCycle (via_cycle_msg cfgViaMissing.mitogen_via
        cfgViaMissing.inventory_name
        (String.intercalate " -> "
          ((["A"] ++ [cfgViaMissing.inventory_name]).reverse)))) :=
  ⟨by decide, c2_cycle_check_precedes_via conn0 cfgViaMissing [] ["A"] 2 (by decide)⟩

/-- C2 counterexample: the three-host cycle A via B via C via A produces
the chain string A, C, B, A, which is the reverse of the traversal order
A, B, C, A, so the message is not in traversal order as claimed. -/
theorem c2_traversal_order_counterexample :
    _stack_from_config connCycle3 cfgCycle3 [] [] 9 =
      .error (.routingCycle (via_cycle_msg (some "B") "A" "A -> C -> B -> A")) ∧
    "A -> C -> B -> A" ≠ "A -> B -> C -> A" :=
  ⟨rfl, by decide⟩

/-- C3 (amended): when the via chain of a configuration resolves without a
cycle to the specification list `cs` and every specification has its
methods in the registry, stack resolution succeeds and returns exactly the
concatenation of each chain entry's hops in chain order (via host hops
first), so the hop count is the chain length plus one extra hop for every
chain entry whose become flag is set, not only the final one. -/
theorem c3_stack_hop_count (conn : Conn) (config : Spec) (fuel : Nat)
    (cs : List Spec)
    (hchain : chainCfgs conn config [] fuel = .ok cs)
    (hknown : ∀ c ∈ cs, knownMethods c) :
    ∃ sn, _stack_from_config conn config [] [] fuel = .ok (hopsOfChain cs, sn) ∧
      (hopsOfChain cs).length =
        (cs.map (fun c => if c.become then 2 else 1)).sum := by
  obtain ⟨sn, hs⟩ := stack_from_chain fuel conn config [] [] cs hchain hknown
  refine ⟨sn, hs, ?_⟩
  rw [hopsOfChain, List.length_flatten, List.map_map]
  exact congrArg List.sum
    (List.map_congr_left (fun c hc => hopsOf_length_of_known c (hknown c hc)))

/-- C3 witness: the two-host chain A via B without escalation users
resolves to two hops, the via host hop first. -/
theorem c3_stack_hop_count_witness :
    chainCfgs connAB cfgAB [] 3 = .ok chainAB ∧
    (∀ c ∈ chainAB, knownMethods c) ∧
    ∃ sn, _stack_from_config connAB cfgAB [] [] 3 = .ok (hopsOfChain chainAB, sn) ∧
      (hopsOfChain chainAB).length =
        (chainAB.map (fun c => if c.become then 2 else 1)).sum :=
  ⟨rfl, by decide, c3_stack_hop_count connAB cfgAB 3 chainAB rfl (by decide)⟩

/-- C3 counterexample: the chain A via root@B has two specifications and a
final become flag of false, yet resolves to three hops, because the
intermediate hop with an escalation user contributes its own become hop;
this contradicts the claimed count of chain length plus final become. -/
theorem c3_hop_count_counterexample :
    (chainCfgs connABroot cfgABroot [] 3).map List.length = .ok 2 ∧
    cfgABroot.become = false ∧
    (_stack_from_config connABroot cfgABroot [] [] 3).map
      (fun p => p.1.length) = .ok 3 :=
  ⟨rfl, rfl, rfl⟩

/-- C4 (amended): with an empty host-variable overlay and no escalation
user, the host-variable derivation equals the direct-context derivation
except in the become fields and additionally in every host-variable
overridden field (address falls back to the inventory name; user,
password, port, interpreter, private key and the mitogen_* settings fall
back to None); the become password of any host-variable derivation is
always None. -/
theorem c4_hostvars_empty_overlay (t inv : String) (conn : Conn) (hv : HV)
    (bu : Option String) :
    config_from_hostvars t inv conn emptyHV Option.none =
      { config_from_play_context t inv conn with
        remote_addr := inv,
        become := false,
        become_user := Option.none,
        become_pass := Option.none,
        remote_user := Option.none,
        password := Option.none,
        port := Option.none,
        python_path := Option.none,
        private_key_file := Option.none,
        mitogen_via := Option.none,
        mitogen_kind := Option.none,
        mitogen_docker_path := Option.none,
        mitogen_lxc_info_path := Option.none,
        mitogen_machinectl_path := Option.none } ∧
    (config_from_hostvars t inv conn hv bu).become_pass = Option.none :=
  ⟨rfl, rfl⟩

/-- C4 counterexample: with an empty host-variable overlay the remote user
becomes None rather than the direct-context remote user, and remote user
is not a become field, contradicting the claimed identity. -/
theorem c4_hostvars_counterexample :
    (config_from_hostvars "ssh" "A" conn0 emptyHV Option.none).remote_user ≠
      (config_from_play_context "ssh" "A" conn0).remote_user := by decide

/-- C5: a structured failure with a non-empty message raises a
ModuleError when the failing method name is a become method and a
ConnectionFailure otherwise, and leaves every handle and metadata field
exactly as it was. -/
theorem c5_failure_classification (become : Bool) (st : ConnSt) (dct : GetDict)
    (m : String) (hm : dct.msg = some m) (hne : m ≠ "") :
    _connect_stack become st dct =
      (st, some (if dct.method_name ∈ become_methods then
          ConnError.moduleError m
        else ConnError.connectionFailure m)) := by
  have htr : pyTruthyO (some m) = true := by simp [pyTruthyO, hne]
  by_cases h : dct.method_name ∈ become_methods <;>
    simp [_connect_stack, hm, htr, h]

/-- C5 witness: a sudo-tagged failure on a fresh state yields a
ModuleError and the untouched state. -/
theorem c5_failure_classification_witness :
    dctFail.msg = some "permission denied" ∧ "permission denied" ≠ "" ∧
    _connect_stack true st0 dctFail =
      (st0, some (if dctFail.method_name ∈ become_methods then
          ConnError.moduleError "permission denied"
        else ConnError.connectionFailure "permission denied")) :=
  ⟨rfl, by decide,
    c5_failure_classification true st0 dctFail "permission denied" rfl (by decide)⟩

/-- C6: for a regular file, the inline fire-and-forget path carrying mode
and timestamps is taken exactly when the stat size is within the
chunk-size threshold and the byte count read still equals the stat size;
a file over the threshold, or one whose read no longer matches the stat
size, goes to the streamed path, so truncated data is never sent
inline. -/
theorem c6_put_file_policy (chunk_size : Nat) (in_path : String) (f : LocalFile)
    (hreg : f.regular = true) :
    (put_file chunk_size in_path f =
        .ok (PutAction.inline f.st_size (some f.st_mode)
          (some (f.st_atime, f.st_mtime)) true) ↔
      f.st_size ≤ chunk_size - 4096 ∧
        min f.size_at_read (chunk_size - 4096 + 1) = f.st_size) ∧
    (chunk_size - 4096 < f.st_size →
      put_file chunk_size in_path f = .ok .streamed) ∧
    (f.st_size ≤ chunk_size - 4096 →
      min f.size_at_read (chunk_size - 4096 + 1) ≠ f.st_size →
      put_file chunk_size in_path f = .ok .streamed) := by
  refine ⟨⟨?_, ?_⟩, ?_, ?_⟩
  · intro h
    by_cases hle : f.st_size ≤ chunk_size - 4096
    · by_cases heq : min f.size_at_read (chunk_size - 4096 + 1) = f.st_size
      · exact ⟨hle, heq⟩
      · simp [put_file, hreg, hle, heq] at h
    · simp [put_file, hreg, hle] at h
  · rintro ⟨hle, heq⟩
    simp [put_file, put_data, hreg, hle, heq]
  · intro hlt
    have hle : ¬ f.st_size ≤ chunk_size - 4096 := by omega
    simp [put_file, hreg, hle]
  · intro hle heq
    simp [put_file, hreg, hle, heq]

/-- C6 witness: a 4096-byte regular file under an 8192-byte chunk size,
read back unchanged, satisfies the policy equivalences. -/
theorem c6_put_file_policy_witness :
    fileSmall.regular = true ∧
    ((put_file 8192 "/tmp/f" fileSmall =
        .ok (PutAction.inline fileSmall.st_size (some fileSmall.st_mode)
          (some (fileSmall.st_atime, fileSmall.st_mtime)) true) ↔
      fileSmall.st_size ≤ 8192 - 4096 ∧
        min fileSmall.size_at_read (8192 - 4096 + 1) = fileSmall.st_size) ∧
    (8192 - 4096 < fileSmall.st_size →
      put_file 8192 "/tmp/f" fileSmall = .ok .streamed) ∧
    (fileSmall.st_size ≤ 8192 - 4096 →
      min fileSmall.size_at_read (8192 - 4096 + 1) ≠ fileSmall.st_size →
      put_file 8192 "/tmp/f" fileSmall = .ok .streamed)) :=
  ⟨rfl, c6_put_file_policy 8192 "/tmp/f" fileSmall rfl⟩

/-- C7: close with new_task releases the handle fields and leaves the
broker and router untouched; close without new_task additionally shuts
down and clears both; and repeated closes, including on a state that
never acquired a handle, stay well defined, leave a fully closed state
unchanged, and issue no further release call. -/
theorem c7_close_semantics (st : ConnSt)
    (hinv : st.router = true → st.broker = true) :
    (close st true).1.context = Option.none ∧
    (close st true).1.login_context = Option.none ∧
    (close st true).1.fork_context = Option.none ∧
    (close st true).1.broker = st.broker ∧
    (close st true).1.router = st.router ∧
    (close st true).2 = st.context.isSome ∧
    (close st false).1.context = Option.none ∧
    (close st false).1.login_context = Option.none ∧
    (close st false).1.fork_context = Option.none ∧
    (close st false).1.broker = false ∧
    (close st false).1.router = false ∧
    (close (close st true).1 false).1.broker = false ∧
    (close (close st true).1 false).2 = false ∧
    (close (close st false).1 false).1 = (close st false).1 ∧
    (close (close st false).1 false).2 = false := by
  cases hb : st.broker with
  | false =>
    have hr : st.router = false := by
      cases hr : st.router with
      | false => rfl
      | true => exact absurd (hinv hr) (by simp [hb])
    simp [close, hb, hr]
  | true => simp [close, hb]

/-- C7 witness: a state with a live handle, broker and router satisfies
the close semantics. -/
theorem c7_close_semantics_witness :
    (stLive.router = true → stLive.broker = true) ∧
    ((close stLive true).1.context = Option.none ∧
    (close stLive true).1.login_context = Option.none ∧
    (close stLive true).1.fork_context = Option.none ∧
    (close stLive true).1.broker = stLive.broker ∧
    (close stLive true).1.router = stLive.router ∧
    (close stLive true).2 = stLive.context.isSome ∧
    (close stLive false).1.context = Option.none ∧
    (close stLive false).1.login_context = Option.none ∧
    (close stLive false).1.fork_context = Option.none ∧
    (close stLive false).1.broker = false ∧
    (close stLive false).1.router = false ∧
    (close (close stLive true).1 false).1.broker = false ∧
    (close (close stLive true).1 false).2 = false ∧
    (close (close stLive false).1 false).1 = (close stLive false).1 ∧
    (close (close stLive false).1 false).2 = false) :=
  ⟨fun _ => rfl, c7_close_semantics stLive (fun _ => rfl)⟩

/-- C8: exec_command requests pseudo-terminal emulation exactly when the
input bytes are empty and escalation is allowed, and appends the
closed-connection trailer to standard error with a
carriage-return-linefeed terminator under pty emulation and a linefeed
otherwise. -/
theorem c8_exec_tty_and_trailer
    (remote : String → String → Option String → Bool → Int × String × String)
    (remote_addr cmd in_data : String) (sudoable : Bool)
    (mitogen_chdir default_cwd : Option String) :
    ((exec_command remote remote_addr cmd in_data sudoable mitogen_chdir
        default_cwd).emulate_tty = true ↔ in_data = "" ∧ sudoable = true) ∧
    (exec_command remote remote_addr cmd in_data sudoable mitogen_chdir
        default_cwd).stderr =
      (remote cmd in_data (pyOrStr mitogen_chdir default_cwd)
        (exec_command remote remote_addr cmd in_data sudoable mitogen_chdir
          default_cwd).emulate_tty).2.2 ++
      "Shared connection to " ++ remote_addr ++ " closed." ++
      (if (exec_command remote remote_addr cmd in_data sudoable mitogen_chdir
          default_cwd).emulate_tty then "\r\n" else "\n") := by
  constructor
  · by_cases hd : in_data = "" <;> by_cases hs : sudoable = true <;>
      simp [exec_command, hd, hs]
  · rfl

/-- C9: a truthy via reference whose inventory identity is missing from
the host variables makes stack resolution fail with the UnknownHost
failure naming the task-level via value and the missing identity, and no
hop descriptor is produced. -/
theorem c9_unknown_via_host (conn : Conn) (config : Spec) (stack : List Hop)
    (seen_names : List String) (fuel : Nat) (v : String)
    (hnm : config.inventory_name ∉ seen_names)
    (hv : config.mitogen_via = some v) (hne : v ≠ "")
    (hlk : conn.host_vars.lookup (viaSplit v).2 = Option.none) :
    _stack_from_config conn config stack seen_names (fuel + 1) =
      .error (.unknownHost (unknown_via_msg conn.mitogen_via (viaSplit v).2)) := by
  have htr : pyTruthyO config.mitogen_via = true := by
    rw [hv]; simp [pyTruthyO, hne]
  simp only [_stack_from_config]
  rw [if_neg hnm, if_pos htr, hv]
  simp only [Option.getD_some]
  rw [config_from_via_unknown conn v hlk]

/-- C9 witness: a via reference to the absent host named missing fails
with UnknownHost under an empty host-variable map. -/
theorem c9_unknown_via_host_witness :
    cfgViaMissing.inventory_name ∉ ([] : List String) ∧
    cfgViaMissing.mitogen_via = some "missing" ∧
    "missing" ≠ "" ∧
    conn0.host_vars.lookup (viaSplit "missing").2 = Option.none ∧
    _stack_from_config conn0 cfgViaMissing [] [] 3 =
      .error (.unknownHost (unknown_via_msg conn0.mitogen_via
        (viaSplit "missing").2)) :=
  ⟨by decide, rfl, by decide, rfl,
    c9_unknown_via_host conn0 cfgViaMissing [] [] 2 "missing" (by decide) rfl
      (by decide) rfl⟩

/-- C10: a synchronous call dispatched with no_reply returns None at once
for every remote outcome, so a remote exception in such a call is never
re-raised locally, while the ordinary synchronous mode re-raises remote
errors and returns remote values. -/
theorem c10_no_reply_swallows_errors (α : Type) (remote : CallOutcome α)
    (e : String) :
    call true remote = .ok Option.none ∧
    call false ((CallOutcome.remoteError e : CallOutcome α)) = .error e ∧
    ∀ v : α, call false (CallOutcome.value v) = .ok (some v) :=
  ⟨rfl, rfl, fun _ => rfl⟩
